import Mathlib

/-!
Shallow embedding of the football league server: the express route handlers
of the repository's server file together with the storage constraints of
src/db/schema.sql (CHECK ranges, foreign keys with foreign_keys = ON).
The relational store is modelled as explicit lists of rows; each route
handler becomes a state-passing function on that store. The event route,
the status route, the player-update route and the standings route are
embedded as applyEvent, updateStatus, updatePlayer and computeStandings.
-/

/-! ### Data model and operations (shallow embedding of the source) -/

/-- Match status, column matches.status of schema.sql. -/
inductive MatchStatus
  | SCHEDULED
  | IN_PLAY
  | FINISHED
  deriving DecidableEq

/-- Event type, column match_events.type of schema.sql. -/
inductive EventType
  | GOAL
  | ASSIST
  | YELLOW
  | RED
  | SUB
  | OWN_GOAL
  deriving DecidableEq

/-- A row of the teams table (columns used by the core logic). -/
structure Team where
  id : Nat
  name : String
  deriving DecidableEq

/-- A row of the players table. -/
structure Player where
  id : Nat
  team_id : Nat
  full_name : String
  position : String
  age : Int
  nationality : Option String
  appearances : Int
  goals : Int
  assists : Int
  yellow_cards : Int
  red_cards : Int
  deriving DecidableEq

/-- A row of the registrations table. -/
structure Registration where
  team_id : Nat
  competition_id : Nat
  deriving DecidableEq

/-- A row of the matches table. -/
structure MatchRow where
  id : Nat
  competition_id : Option Nat
  home_team_id : Nat
  away_team_id : Nat
  status : MatchStatus
  home_score : Int
  away_score : Int
  deriving DecidableEq

/-- A row of the match_events table. -/
structure MatchEvent where
  id : Nat
  match_id : Nat
  minute : Int
  type : EventType
  player_id : Option Nat
  team_id : Option Nat
  notes : Option String
  deriving DecidableEq

/-- The relational store: one list of rows per table, plus the
AUTOINCREMENT counter for match_events ids. -/
structure Store where
  teams : List Team
  players : List Player
  registrations : List Registration
  matchesTbl : List MatchRow
  events : List MatchEvent
  nextEventId : Nat
  deriving DecidableEq

/-- The JSON body of POST /api/matches/:id/event after destructuring
(player_id, team_id, notes default to null). The type field arrives as a
raw string and is checked against the enum by the route. -/
structure EventReq where
  minute : Int
  type : String
  player_id : Option Nat
  team_id : Option Nat
  notes : Option String
  deriving DecidableEq

/-- The route's membership test of type against
['GOAL','ASSIST','YELLOW','RED','SUB','OWN_GOAL'], returning the parsed
enum value on success. -/
def parseEventType : String → Option EventType
  | "GOAL" => some .GOAL
  | "ASSIST" => some .ASSIST
  | "YELLOW" => some .YELLOW
  | "RED" => some .RED
  | "SUB" => some .SUB
  | "OWN_GOAL" => some .OWN_GOAL
  | _ => none

/-- JavaScript truthiness of a nullable numeric id
(null and 0 are falsy), as used in the conditions
player_id && type === 'GOAL' and type === 'YELLOW' && player_id. -/
def truthyId : Option Nat → Bool
  | some p => p != 0
  | none => false

/-- Outcomes of the event route: badEventType is the 400 response of the
route's own enum check; storageCheck is a sqlite constraint failure
(CHECK minute range, or a foreign key under foreign_keys = ON) thrown by
the INSERT, which aborts the handler before any score or counter update. -/
inductive ApplyError
  | badEventType
  | storageCheck
  deriving DecidableEq

/-- The storage constraints of the match_events INSERT from schema.sql:
CHECK (minute between 0 and 130), FOREIGN KEY match_id, and the optional
FOREIGN KEYs player_id / team_id. -/
def eventInsertOk (s : Store) (mid : Nat) (e : EventReq) : Bool :=
  (decide (0 ≤ e.minute) && decide (e.minute ≤ 130))
    && s.matchesTbl.any (fun m => m.id == mid)
    && (match e.player_id with
        | some p => s.players.any (fun q => q.id == p)
        | none => true)
    && (match e.team_id with
        | some t => s.teams.any (fun t0 => t0.id == t)
        | none => true)

/-- POST /api/matches/:id/event. Checks the type enum, inserts the event
row (subject to the storage constraints), re-reads the match, then applies
the score and player-counter mutations of the route body. Returns the
resulting store paired with the new event id or the error; on error the
store is returned unchanged (nothing was persisted). -/
def applyEvent (s : Store) (mid : Nat) (e : EventReq) : Store × Except ApplyError Nat :=
  match parseEventType e.type with
  | none => (s, .error .badEventType)
  | some ty =>
    if eventInsertOk s mid e then
      let eid := s.nextEventId
      let s1 : Store :=
        { s with
          events := s.events ++ [⟨eid, mid, e.minute, ty, e.player_id, e.team_id, e.notes⟩],
          nextEventId := eid + 1 }
      match s1.matchesTbl.find? (fun m => m.id == mid) with
      | none => (s, .error .storageCheck)
      | some mt =>
        let s2 : Store :=
          if ty == .GOAL || ty == .OWN_GOAL then
            let isOwn := ty == .OWN_GOAL
            let homeInc : Int := if (e.team_id == some mt.home_team_id) ^^ isOwn then 1 else 0
            let awayInc : Int := if (e.team_id == some mt.away_team_id) ^^ isOwn then 1 else 0
            let sA : Store :=
              { s1 with
                matchesTbl := s1.matchesTbl.map (fun m =>
                  if m.id == mid then
                    { m with
                      home_score := m.home_score + homeInc,
                      away_score := m.away_score + awayInc }
                  else m) }
            if truthyId e.player_id && ty == .GOAL then
              { sA with
                players := sA.players.map (fun p =>
                  if some p.id == e.player_id then { p with goals := p.goals + 1 } else p) }
            else sA
          else s1
        let s3 : Store :=
          if ty == .YELLOW && truthyId e.player_id then
            { s2 with
              players := s2.players.map (fun p =>
                if some p.id == e.player_id then { p with yellow_cards := p.yellow_cards + 1 } else p) }
          else s2
        let s4 : Store :=
          if ty == .RED && truthyId e.player_id then
            { s3 with
              players := s3.players.map (fun p =>
                if some p.id == e.player_id then { p with red_cards := p.red_cards + 1 } else p) }
          else s3
        (s4, .ok eid)
    else (s, .error .storageCheck)

/-- The status strings accepted by POST /api/matches/:id/status. -/
def parseStatus : String → Option MatchStatus
  | "SCHEDULED" => some .SCHEDULED
  | "IN_PLAY" => some .IN_PLAY
  | "FINISHED" => some .FINISHED
  | _ => none

/-- POST /api/matches/:id/status: reject strings outside the enum with a
400 (none); otherwise UPDATE matches SET status = ? WHERE id = ?,
unconditionally on the current status. -/
def updateStatus (s : Store) (id : Nat) (status : String) : Option Store :=
  match parseStatus status with
  | none => none
  | some v =>
    some { s with
           matchesTbl := s.matchesTbl.map (fun m => if m.id == id then { m with status := v } else m) }

/-- The JSON body of PUT /api/players/:id restricted to the allowed field
list of the route; absent fields are none. Counter fields carry raw values
with no range validation. -/
structure PlayerPatch where
  team_id : Option Nat
  full_name : Option String
  position : Option String
  age : Option Int
  nationality : Option (Option String)
  appearances : Option Int
  goals : Option Int
  assists : Option Int
  yellow_cards : Option Int
  red_cards : Option Int
  deriving DecidableEq

/-- A patch providing no fields. -/
def emptyPatch : PlayerPatch :=
  ⟨none, none, none, none, none, none, none, none, none, none⟩

/-- Apply the provided fields of a patch over a player row, as the
generated UPDATE players SET f = ? list does. -/
def patchPlayer (pp : PlayerPatch) (p : Player) : Player :=
  { p with
    team_id := pp.team_id.getD p.team_id,
    full_name := pp.full_name.getD p.full_name,
    position := pp.position.getD p.position,
    age := pp.age.getD p.age,
    nationality := pp.nationality.getD p.nationality,
    appearances := pp.appearances.getD p.appearances,
    goals := pp.goals.getD p.goals,
    assists := pp.assists.getD p.assists,
    yellow_cards := pp.yellow_cards.getD p.yellow_cards,
    red_cards := pp.red_cards.getD p.red_cards }

/-- The storage constraints of the players table that an UPDATE must
respect: CHECK position, CHECK age range, FOREIGN KEY team_id. The five
counters have no CHECK constraint. -/
def patchOk (s : Store) (pp : PlayerPatch) : Bool :=
  (match pp.position with
   | some pos => pos == "GK" || pos == "DF" || pos == "MF" || pos == "FW"
   | none => true)
    && (match pp.age with
        | some a => decide (10 ≤ a) && decide (a ≤ 55)
        | none => true)
    && (match pp.team_id with
        | some t => s.teams.any (fun t0 => t0.id == t)
        | none => true)

/-- PUT /api/players/:id: no route-level validation of values; the UPDATE
either passes the storage constraints and sets the provided fields, or the
constraint failure aborts it (none). -/
def updatePlayer (s : Store) (pid : Nat) (pp : PlayerPatch) : Option Store :=
  if patchOk s pp then
    some { s with
           players := s.players.map (fun p => if p.id == pid then patchPlayer pp p else p) }
  else none

/-- One row of the standings table built by GET /api/standings/:competitionId. -/
structure StandRow where
  team_id : Nat
  team : String
  P : Int
  W : Int
  D : Int
  L : Int
  GF : Int
  GA : Int
  GD : Int
  PTS : Int
  deriving DecidableEq

/-- The zero-valued row the route creates for each registered team. -/
def initRow (t : Team) : StandRow :=
  ⟨t.id, t.name, 0, 0, 0, 0, 0, 0, 0, 0⟩

/-- SELECT t.id, t.name FROM teams t JOIN registrations r ON r.team_id = t.id
WHERE r.competition_id = ? (one row per registered team; the primary key of
registrations makes the join row unique per team). -/
def registeredTeams (s : Store) (cid : Nat) : List Team :=
  s.teams.filter (fun t =>
    s.registrations.any (fun r => r.team_id == t.id && r.competition_id == cid))

/-- SELECT * FROM matches WHERE competition_id = ? AND status = "FINISHED". -/
def finishedMatches (s : Store) (cid : Nat) : List MatchRow :=
  s.matchesTbl.filter (fun m => m.competition_id == some cid && m.status == .FINISHED)

/-- The home side's mutations for one finished match: P, GF, GA, recomputed
GD, then the result branch on the score comparison. -/
def applyHome (m : MatchRow) (r : StandRow) : StandRow :=
  let r1 := { r with P := r.P + 1, GF := r.GF + m.home_score, GA := r.GA + m.away_score }
  let r2 := { r1 with GD := r1.GF - r1.GA }
  if m.home_score > m.away_score then { r2 with W := r2.W + 1, PTS := r2.PTS + 3 }
  else if m.home_score < m.away_score then { r2 with L := r2.L + 1 }
  else { r2 with D := r2.D + 1, PTS := r2.PTS + 1 }

/-- The away side's mutations for one finished match. -/
def applyAway (m : MatchRow) (r : StandRow) : StandRow :=
  let r1 := { r with P := r.P + 1, GF := r.GF + m.away_score, GA := r.GA + m.home_score }
  let r2 := { r1 with GD := r1.GF - r1.GA }
  if m.home_score > m.away_score then { r2 with L := r2.L + 1 }
  else if m.home_score < m.away_score then { r2 with W := r2.W + 1, PTS := r2.PTS + 3 }
  else { r2 with D := r2.D + 1, PTS := r2.PTS + 1 }

/-- Mutate the table row keyed by a team id (the Map.get followed by
in-place mutation of the route). -/
def updateRow (tbl : List StandRow) (tid : Nat) (f : StandRow → StandRow) : List StandRow :=
  tbl.map (fun r => if r.team_id == tid then f r else r)

/-- One iteration of the route's loop over finished matches: if either
side's row is absent from the table the match is skipped, otherwise both
sides' mutations are applied. -/
def stepMatch (tbl : List StandRow) (m : MatchRow) : List StandRow :=
  if (tbl.find? (fun r => r.team_id == m.home_team_id)).isSome
      && (tbl.find? (fun r => r.team_id == m.away_team_id)).isSome then
    updateRow (updateRow tbl m.home_team_id (applyHome m)) m.away_team_id (applyAway m)
  else tbl

/-- Sign-valued string comparison, modelling a.team.localeCompare(b.team)
over the lexicographic order on names. -/
def strCmpInt (a b : String) : Int :=
  if a < b then -1 else if a = b then 0 else 1

/-- The route's comparator
(a, b) => b.PTS - a.PTS || b.GD - a.GD || b.GF - a.GF || a.team.localeCompare(b.team):
the first nonzero of the chain. -/
def rowCmp (a b : StandRow) : Int :=
  if b.PTS - a.PTS ≠ 0 then b.PTS - a.PTS
  else if b.GD - a.GD ≠ 0 then b.GD - a.GD
  else if b.GF - a.GF ≠ 0 then b.GF - a.GF
  else strCmpInt a.team b.team

/-- The non-strict order induced by the comparator (a sorts no later
than b). -/
def rowLE (a b : StandRow) : Bool :=
  decide (rowCmp a b ≤ 0)

/-- Array.prototype.sort with the comparator: a stable sort consistent
with rowCmp. -/
def sortRows (tbl : List StandRow) : List StandRow :=
  tbl.mergeSort rowLE

/-- GET /api/standings/:competitionId: zero rows for the registered teams,
one pass over the finished matches of the competition, then the comparator
sort. -/
def computeStandings (s : Store) (cid : Nat) : List StandRow :=
  sortRows ((finishedMatches s cid).foldl stepMatch ((registeredTeams s cid).map initRow))

/-! ### Helper lemmas -/

/-- Pointwise monotonicity of the five cumulative counters, with identity
of the row. -/
def counterLe (p q : Player) : Prop :=
  q.id = p.id ∧ p.appearances ≤ q.appearances ∧ p.goals ≤ q.goals ∧
    p.assists ≤ q.assists ∧ p.yellow_cards ≤ q.yellow_cards ∧ p.red_cards ≤ q.red_cards

/-- All four comparator keys equal. -/
def keyEq (a b : StandRow) : Prop :=
  a.PTS = b.PTS ∧ a.GD = b.GD ∧ a.GF = b.GF ∧ a.team = b.team

/-- Strict lexicographic order on the key tuple (points desc, goal
difference desc, goals-for desc, name asc): a ranks strictly before b. -/
def keyGT (a b : StandRow) : Prop :=
  b.PTS < a.PTS ∨ (a.PTS = b.PTS ∧ (b.GD < a.GD ∨ (a.GD = b.GD ∧
    (b.GF < a.GF ∨ (a.GF = b.GF ∧ a.team < b.team)))))

/-- Lexicographic greater-or-equal on the key tuple (points, GD, GF,
reversed name). -/
def keyGE (a b : StandRow) : Prop :=
  keyGT a b ∨ keyEq a b

/-- The arithmetic invariants of a standings row. -/
def rowInv (r : StandRow) : Prop :=
  r.P = r.W + r.D + r.L ∧ r.PTS = 3 * r.W + r.D ∧ r.GD = r.GF - r.GA

def teamA : Team := ⟨1, "Alpha"⟩

def teamB : Team := ⟨2, "Beta"⟩

def witMatch : MatchRow := ⟨1, some 1, 1, 2, .IN_PLAY, 0, 0⟩

def witPlayer : Player := ⟨7, 1, "Seven", "FW", 25, none, 0, 4, 0, 0, 0⟩

def witStore : Store := ⟨[teamA, teamB], [witPlayer], [⟨1, 1⟩, ⟨2, 1⟩], [witMatch], [], 1⟩

def finStore : Store := ⟨[teamA, teamB], [], [⟨1, 1⟩, ⟨2, 1⟩], [⟨1, some 1, 1, 2, .FINISHED, 3, 1⟩], [], 1⟩

def finMatch : MatchRow := ⟨1, some 1, 1, 2, .FINISHED, 3, 1⟩

/-! ### Helper lemmas -/

/-- find? commutes with a map that does not disturb the predicate. -/
theorem find?_map_of_pres {α : Type} (d : α → Bool) (g : α → α) (l : List α)
    (hpres : ∀ a, d (g a) = d a) :
    (l.map g).find? d = (l.find? d).map g := by
  induction l with
  | nil => rfl
  | cons a l ih =>
    simp only [List.map_cons, List.find?_cons, hpres a]
    cases h : d a
    · simpa using ih
    · rfl

/-- Bool xor over the two code booleans versus the propositional XOR. -/
theorem xor_if_int (a b : Bool) (P Q : Prop) [Decidable P] [Decidable Q]
    (ha : a = true ↔ P) (hb : b = true ↔ Q) :
    (if (a ^^ b) = true then (1 : Int) else 0) = if Xor' P Q then 1 else 0 := by
  cases a <;> cases b <;> simp_all [Xor']

theorem applyEvent_matches_of_goal (s : Store) (mid : Nat) (e : EventReq) (ty : EventType)
    (mt : MatchRow)
    (hty : parseEventType e.type = some ty)
    (hsc : ty = .GOAL ∨ ty = .OWN_GOAL)
    (hok : eventInsertOk s mid e = true)
    (hfind : s.matchesTbl.find? (fun m => m.id == mid) = some mt) :
    (applyEvent s mid e).2 = .ok s.nextEventId ∧
    (applyEvent s mid e).1.matchesTbl.find? (fun m => m.id == mid) =
      some { mt with
             home_score := mt.home_score +
               (if (e.team_id == some mt.home_team_id) ^^ (ty == EventType.OWN_GOAL) then 1 else 0),
             away_score := mt.away_score +
               (if (e.team_id == some mt.away_team_id) ^^ (ty == EventType.OWN_GOAL) then 1 else 0) } := by
  have hmtid := List.find?_some hfind
  simp only at hmtid
  have hmt : mt.id = mid := by simpa using hmtid
  simp only [applyEvent, hty, hok, if_true, hfind]
  rcases hsc with h | h <;> subst h
  · constructor
    · simp
    · have hc1 : (EventType.GOAL == EventType.GOAL || EventType.GOAL == EventType.OWN_GOAL) = true := rfl
      simp only [apply_ite Store.matchesTbl, ite_self]
      rw [if_pos hc1, find?_map_of_pres]
      · rw [hfind]
        simp [hmt]
      · intro a; cases h : (a.id == mid) <;> simp [h]
  · constructor
    · simp
    · have hc1 : (EventType.OWN_GOAL == EventType.GOAL || EventType.OWN_GOAL == EventType.OWN_GOAL) = true := rfl
      simp only [apply_ite Store.matchesTbl, ite_self]
      rw [if_pos hc1, find?_map_of_pres]
      · rw [hfind]
        simp [hmt]
      · intro a; cases h : (a.id == mid) <;> simp [h]

theorem applyEvent_player_goal (s : Store) (mid : Nat) (e : EventReq) (pid : Nat)
    (mt : MatchRow) (q : Player)
    (hty : parseEventType e.type = some .GOAL)
    (hok : eventInsertOk s mid e = true)
    (hmatch : s.matchesTbl.find? (fun m => m.id == mid) = some mt)
    (hpid : e.player_id = some pid) (hpz : pid ≠ 0)
    (hq : s.players.find? (fun p => p.id == pid) = some q) :
    (applyEvent s mid e).1.players.find? (fun p => p.id == pid) =
      some { q with goals := q.goals + 1 } := by
  have hqid : q.id = pid := by simpa using List.find?_some hq
  have htru : truthyId e.player_id = true := by
    rw [hpid]; simpa [truthyId] using hpz
  have hc1 : ((EventType.GOAL == EventType.GOAL || EventType.GOAL == EventType.OWN_GOAL) : Bool) = true := rfl
  have hc2 : (EventType.GOAL == EventType.YELLOW) = false := rfl
  have hc3 : (EventType.GOAL == EventType.RED) = false := rfl
  simp only [applyEvent, hty, hok, if_true, hmatch, htru, hc1, hc2, hc3,
    Bool.false_and, Bool.true_and, if_false]
  have hc4 : (EventType.GOAL == EventType.GOAL) = true := rfl
  simp only [hc4, if_true, hpid, Bool.false_eq_true, if_false]
  rw [find?_map_of_pres]
  · rw [hq]
    simp [hqid]
  · intro a; cases h : (a.id == pid) <;> simp [h]

theorem applyEvent_players_own_goal (s : Store) (mid : Nat) (e : EventReq)
    (hty : parseEventType e.type = some .OWN_GOAL) :
    (applyEvent s mid e).1.players = s.players := by
  simp only [applyEvent, hty]
  by_cases hok : eventInsertOk s mid e = true
  · simp only [hok, if_true]
    cases hf : s.matchesTbl.find? (fun m => m.id == mid) with
    | none => rfl
    | some mt =>
      simp [apply_ite Store.players, ite_self]
  · simp [hok]

theorem counterLe_refl (p : Player) : counterLe p p :=
  ⟨rfl, le_refl _, le_refl _, le_refl _, le_refl _, le_refl _⟩

theorem forall₂_counterLe_condMap (l : List Player) (c : Player → Bool) (f : Player → Player)
    (hf : ∀ p, counterLe p (f p)) :
    List.Forall₂ counterLe l (l.map fun p => if c p then f p else p) := by
  induction l with
  | nil => simp
  | cons a l ih =>
    simp only [List.map_cons]
    refine List.Forall₂.cons ?_ ih
    cases h : c a
    · simp only [h, Bool.false_eq_true, if_false]
      exact counterLe_refl a
    · simp only [h, if_true]
      exact hf a

theorem applyEvent_events_ok (s : Store) (mid : Nat) (e : EventReq) (ty : EventType)
    (mt : MatchRow)
    (hty : parseEventType e.type = some ty)
    (hok : eventInsertOk s mid e = true)
    (hfind : s.matchesTbl.find? (fun m => m.id == mid) = some mt) :
    (applyEvent s mid e).1.events =
      s.events ++ [⟨s.nextEventId, mid, e.minute, ty, e.player_id, e.team_id, e.notes⟩] := by
  simp only [applyEvent, hty, hok, if_true, hfind]
  cases ty <;>
    simp [apply_ite Store.events, ite_self]

theorem applyHome_team_id (m : MatchRow) (r : StandRow) :
    (applyHome m r).team_id = r.team_id := by
  unfold applyHome
  split
  · rfl
  · split <;> rfl

theorem applyAway_team_id (m : MatchRow) (r : StandRow) :
    (applyAway m r).team_id = r.team_id := by
  unfold applyAway
  split
  · rfl
  · split <;> rfl

theorem applyHome_team (m : MatchRow) (r : StandRow) :
    (applyHome m r).team = r.team := by
  unfold applyHome
  split
  · rfl
  · split <;> rfl

theorem applyAway_team (m : MatchRow) (r : StandRow) :
    (applyAway m r).team = r.team := by
  unfold applyAway
  split
  · rfl
  · split <;> rfl

theorem stepMatch_find_home (tbl : List StandRow) (m : MatchRow) (rh ra : StandRow)
    (hh : tbl.find? (fun r => r.team_id == m.home_team_id) = some rh)
    (ha : tbl.find? (fun r => r.team_id == m.away_team_id) = some ra)
    (hne : m.home_team_id ≠ m.away_team_id) :
    (stepMatch tbl m).find? (fun r => r.team_id == m.home_team_id) =
      some (applyHome m rh) := by
  have hrh : rh.team_id = m.home_team_id := by simpa using List.find?_some hh
  unfold stepMatch updateRow
  rw [if_pos (by simp [hh, ha])]
  rw [find?_map_of_pres, find?_map_of_pres, hh]
  · simp [hrh, applyHome_team_id, hne]
  all_goals
    intro a
    by_cases hc1 : a.team_id = m.home_team_id <;>
      by_cases hc2 : a.team_id = m.away_team_id <;>
        simp [hc1, hc2, applyHome_team_id, applyAway_team_id, hne, Ne.symm hne]

theorem stepMatch_find_away (tbl : List StandRow) (m : MatchRow) (rh ra : StandRow)
    (hh : tbl.find? (fun r => r.team_id == m.home_team_id) = some rh)
    (ha : tbl.find? (fun r => r.team_id == m.away_team_id) = some ra)
    (hne : m.home_team_id ≠ m.away_team_id) :
    (stepMatch tbl m).find? (fun r => r.team_id == m.away_team_id) =
      some (applyAway m ra) := by
  have hra : ra.team_id = m.away_team_id := by simpa using List.find?_some ha
  unfold stepMatch updateRow
  rw [if_pos (by simp [hh, ha])]
  rw [find?_map_of_pres, find?_map_of_pres, ha]
  · simp [hra, Ne.symm hne]
  all_goals
    intro a
    by_cases hc1 : a.team_id = m.home_team_id <;>
      by_cases hc2 : a.team_id = m.away_team_id <;>
        simp [hc1, hc2, applyHome_team_id, applyAway_team_id, hne, Ne.symm hne]

theorem applyHome_base (m : MatchRow) (r : StandRow) :
    (applyHome m r).P = r.P + 1 ∧
    (applyHome m r).GF = r.GF + m.home_score ∧
    (applyHome m r).GA = r.GA + m.away_score ∧
    (applyHome m r).GD = (applyHome m r).GF - (applyHome m r).GA := by
  unfold applyHome
  split
  · exact ⟨rfl, rfl, rfl, rfl⟩
  · split <;> exact ⟨rfl, rfl, rfl, rfl⟩

theorem applyAway_base (m : MatchRow) (r : StandRow) :
    (applyAway m r).P = r.P + 1 ∧
    (applyAway m r).GF = r.GF + m.away_score ∧
    (applyAway m r).GA = r.GA + m.home_score ∧
    (applyAway m r).GD = (applyAway m r).GF - (applyAway m r).GA := by
  unfold applyAway
  split
  · exact ⟨rfl, rfl, rfl, rfl⟩
  · split <;> exact ⟨rfl, rfl, rfl, rfl⟩

theorem applyHome_result (m : MatchRow) (r : StandRow) :
    (m.away_score < m.home_score →
      (applyHome m r).W = r.W + 1 ∧ (applyHome m r).D = r.D ∧
      (applyHome m r).L = r.L ∧ (applyHome m r).PTS = r.PTS + 3) ∧
    (m.home_score < m.away_score →
      (applyHome m r).L = r.L + 1 ∧ (applyHome m r).W = r.W ∧
      (applyHome m r).D = r.D ∧ (applyHome m r).PTS = r.PTS) ∧
    (m.home_score = m.away_score →
      (applyHome m r).D = r.D + 1 ∧ (applyHome m r).W = r.W ∧
      (applyHome m r).L = r.L ∧ (applyHome m r).PTS = r.PTS + 1) := by
  unfold applyHome
  refine ⟨fun h => ?_, fun h => ?_, fun h => ?_⟩
  · rw [if_pos (by omega)]
    exact ⟨rfl, rfl, rfl, rfl⟩
  · rw [if_neg (by omega), if_pos (by omega)]
    exact ⟨rfl, rfl, rfl, rfl⟩
  · rw [if_neg (by omega), if_neg (by omega)]
    exact ⟨rfl, rfl, rfl, rfl⟩

theorem applyAway_result (m : MatchRow) (r : StandRow) :
    (m.away_score < m.home_score →
      (applyAway m r).L = r.L + 1 ∧ (applyAway m r).W = r.W ∧
      (applyAway m r).D = r.D ∧ (applyAway m r).PTS = r.PTS) ∧
    (m.home_score < m.away_score →
      (applyAway m r).W = r.W + 1 ∧ (applyAway m r).D = r.D ∧
      (applyAway m r).L = r.L ∧ (applyAway m r).PTS = r.PTS + 3) ∧
    (m.home_score = m.away_score →
      (applyAway m r).D = r.D + 1 ∧ (applyAway m r).W = r.W ∧
      (applyAway m r).L = r.L ∧ (applyAway m r).PTS = r.PTS + 1) := by
  unfold applyAway
  refine ⟨fun h => ?_, fun h => ?_, fun h => ?_⟩
  · rw [if_pos (by omega)]
    exact ⟨rfl, rfl, rfl, rfl⟩
  · rw [if_neg (by omega), if_pos (by omega)]
    exact ⟨rfl, rfl, rfl, rfl⟩
  · rw [if_neg (by omega), if_neg (by omega)]
    exact ⟨rfl, rfl, rfl, rfl⟩

theorem rowInv_initRow (t : Team) : rowInv (initRow t) := by
  refine ⟨?_, ?_, ?_⟩ <;> simp [initRow]

theorem rowInv_applyHome (m : MatchRow) (r : StandRow) (h : rowInv r) :
    rowInv (applyHome m r) := by
  obtain ⟨h1, h2, h3⟩ := h
  unfold applyHome rowInv
  split
  · refine ⟨?_, ?_, ?_⟩ <;> dsimp only <;> omega
  · split <;> (refine ⟨?_, ?_, ?_⟩ <;> dsimp only <;> omega)

theorem rowInv_applyAway (m : MatchRow) (r : StandRow) (h : rowInv r) :
    rowInv (applyAway m r) := by
  obtain ⟨h1, h2, h3⟩ := h
  unfold applyAway rowInv
  split
  · refine ⟨?_, ?_, ?_⟩ <;> dsimp only <;> omega
  · split <;> (refine ⟨?_, ?_, ?_⟩ <;> dsimp only <;> omega)

theorem rowInv_stepMatch (tbl : List StandRow) (m : MatchRow)
    (h : ∀ r ∈ tbl, rowInv r) : ∀ r ∈ stepMatch tbl m, rowInv r := by
  unfold stepMatch updateRow
  split
  · intro r hr
    rw [List.mem_map] at hr
    obtain ⟨b, hb, rfl⟩ := hr
    rw [List.mem_map] at hb
    obtain ⟨a, ha, rfl⟩ := hb
    have hinv := h a ha
    split
    · have h2 := rowInv_applyHome m a hinv
      split
      · exact rowInv_applyAway _ _ h2
      · exact h2
    · split
      · exact rowInv_applyAway _ _ hinv
      · exact hinv
  · exact h

theorem rowInv_foldl (ms : List MatchRow) (tbl : List StandRow)
    (h : ∀ r ∈ tbl, rowInv r) : ∀ r ∈ ms.foldl stepMatch tbl, rowInv r := by
  induction ms generalizing tbl with
  | nil => exact h
  | cons m ms ih => exact ih _ (rowInv_stepMatch tbl m h)

theorem strCmpInt_le_zero (a b : String) : strCmpInt a b ≤ 0 ↔ a ≤ b := by
  unfold strCmpInt
  split
  · next h => simp [le_of_lt h]
  · split
    · next h => simp [le_of_eq h]
    · next h1 h2 =>
      have : ¬ a ≤ b := by
        rw [le_iff_lt_or_eq]
        tauto
      simp [this]

theorem strCmpInt_eq_zero (a b : String) : strCmpInt a b = 0 ↔ a = b := by
  unfold strCmpInt
  split
  · next h => simp [ne_of_lt h]
  · split
    · next h => simp [h]
    · next h1 h2 => simp [h2]

theorem rowCmp_le_zero_iff (a b : StandRow) : rowCmp a b ≤ 0 ↔ keyGE a b := by
  unfold rowCmp keyGE keyGT keyEq
  split
  · next h1 =>
    constructor
    · intro hle
      exact Or.inl (Or.inl (by omega))
    · rintro ((h | ⟨he, _⟩) | ⟨he, _⟩) <;> omega
  · next h1 =>
    split
    · next h2 =>
      constructor
      · intro hle
        exact Or.inl (Or.inr ⟨by omega, Or.inl (by omega)⟩)
      · rintro ((h | ⟨he, (h | ⟨hf, _⟩)⟩) | ⟨he, hf, _⟩) <;> omega
    · next h2 =>
      split
      · next h3 =>
        constructor
        · intro hle
          exact Or.inl (Or.inr ⟨by omega, Or.inr ⟨by omega, Or.inl (by omega)⟩⟩)
        · rintro ((h | ⟨he, (h | ⟨hf, (h | ⟨hg, _⟩)⟩)⟩) | ⟨he, hf, hg, _⟩) <;> omega
      · next h3 =>
        rw [strCmpInt_le_zero]
        constructor
        · intro hle
          rcases lt_or_eq_of_le hle with h | h
          · exact Or.inl (Or.inr ⟨by omega, Or.inr ⟨by omega, Or.inr ⟨by omega, h⟩⟩⟩)
          · exact Or.inr ⟨by omega, by omega, by omega, h⟩
        · rintro ((h | ⟨he, (h | ⟨hf, (h | ⟨hg, h⟩)⟩)⟩) | ⟨he, hf, hg, h⟩)
          · omega
          · omega
          · omega
          · exact le_of_lt h
          · exact le_of_eq h

theorem keyGT_trans {a b c : StandRow} (h1 : keyGT a b) (h2 : keyGT b c) : keyGT a c := by
  unfold keyGT at *
  rcases h1 with h1 | ⟨e1, h1⟩ <;> rcases h2 with h2 | ⟨e2, h2⟩
  · left; omega
  · left; omega
  · left; omega
  · right
    refine ⟨by omega, ?_⟩
    rcases h1 with h1 | ⟨f1, h1⟩ <;> rcases h2 with h2 | ⟨f2, h2⟩
    · left; omega
    · left; omega
    · left; omega
    · right
      refine ⟨by omega, ?_⟩
      rcases h1 with h1 | ⟨g1, h1⟩ <;> rcases h2 with h2 | ⟨g2, h2⟩
      · left; omega
      · left; omega
      · left; omega
      · right
        exact ⟨by omega, lt_trans h1 h2⟩

theorem keyGT_congr_right {a b c : StandRow} (h : keyGT a b) (e : keyEq b c) : keyGT a c := by
  obtain ⟨e1, e2, e3, e4⟩ := e
  unfold keyGT at *
  rw [← e1, ← e2, ← e3, ← e4]
  exact h

theorem keyGT_congr_left {a b c : StandRow} (e : keyEq a b) (h : keyGT b c) : keyGT a c := by
  obtain ⟨e1, e2, e3, e4⟩ := e
  unfold keyGT at *
  rw [e1, e2, e3, e4]
  exact h

theorem keyGT_asymm {a b : StandRow} (h1 : keyGT a b) (h2 : keyGT b a) : False := by
  unfold keyGT at *
  rcases h1 with h1 | ⟨e1, h1⟩ <;> rcases h2 with h2 | ⟨e2, h2⟩
  · omega
  · omega
  · omega
  · rcases h1 with h1 | ⟨f1, h1⟩ <;> rcases h2 with h2 | ⟨f2, h2⟩
    · omega
    · omega
    · omega
    · rcases h1 with h1 | ⟨g1, h1⟩ <;> rcases h2 with h2 | ⟨g2, h2⟩
      · omega
      · omega
      · omega
      · exact absurd h1 (asymm h2)

theorem keyEq_symm {a b : StandRow} (h : keyEq a b) : keyEq b a :=
  ⟨h.1.symm, h.2.1.symm, h.2.2.1.symm, h.2.2.2.symm⟩

theorem keyGE_trans {a b c : StandRow} (h1 : keyGE a b) (h2 : keyGE b c) : keyGE a c := by
  rcases h1 with h1 | h1 <;> rcases h2 with h2 | h2
  · exact Or.inl (keyGT_trans h1 h2)
  · exact Or.inl (keyGT_congr_right h1 h2)
  · exact Or.inl (keyGT_congr_left h1 h2)
  · exact Or.inr ⟨h1.1.trans h2.1, h1.2.1.trans h2.2.1, h1.2.2.1.trans h2.2.2.1,
      h1.2.2.2.trans h2.2.2.2⟩

theorem keyGE_total (a b : StandRow) : keyGE a b ∨ keyGE b a := by
  unfold keyGE keyGT keyEq
  rcases lt_trichotomy a.PTS b.PTS with h | h | h
  · right; left; left; exact h
  · rcases lt_trichotomy a.GD b.GD with h2 | h2 | h2
    · right; left; right; exact ⟨h.symm, Or.inl h2⟩
    · rcases lt_trichotomy a.GF b.GF with h3 | h3 | h3
      · right; left; right; exact ⟨h.symm, Or.inr ⟨h2.symm, Or.inl h3⟩⟩
      · rcases lt_trichotomy a.team b.team with h4 | h4 | h4
        · left; left; right; exact ⟨h, Or.inr ⟨h2, Or.inr ⟨h3, h4⟩⟩⟩
        · left; right; exact ⟨h, h2, h3, h4⟩
        · right; left; right; exact ⟨h.symm, Or.inr ⟨h2.symm, Or.inr ⟨h3.symm, h4⟩⟩⟩
      · left; left; right; exact ⟨h, Or.inr ⟨h2, Or.inl h3⟩⟩
    · left; left; right; exact ⟨h, Or.inl h2⟩
  · left; left; left; exact h

theorem keyGE_antisymm {a b : StandRow} (h1 : keyGE a b) (h2 : keyGE b a) : keyEq a b := by
  rcases h1 with h1 | h1
  · rcases h2 with h2 | h2
    · exact absurd h2 (fun h => keyGT_asymm h1 h)
    · exact keyEq_symm h2
  · exact h1

theorem rowLE_trans (a b c : StandRow) (h1 : rowLE a b = true) (h2 : rowLE b c = true) :
    rowLE a c = true := by
  unfold rowLE at *
  rw [decide_eq_true_iff] at *
  rw [rowCmp_le_zero_iff] at *
  exact keyGE_trans h1 h2

theorem rowLE_total (a b : StandRow) : (rowLE a b || rowLE b a) = true := by
  unfold rowLE
  rw [Bool.or_eq_true, decide_eq_true_iff, decide_eq_true_iff,
    rowCmp_le_zero_iff, rowCmp_le_zero_iff]
  exact keyGE_total a b

theorem sortRows_pairwise (tbl : List StandRow) :
    List.Pairwise (fun a b => rowLE a b = true) (sortRows tbl) :=
  List.sorted_mergeSort rowLE_trans rowLE_total tbl

theorem updateRow_team_map (tbl : List StandRow) (tid : Nat) (f : StandRow → StandRow)
    (hf : ∀ r, (f r).team = r.team) :
    (updateRow tbl tid f).map StandRow.team = tbl.map StandRow.team := by
  unfold updateRow
  rw [List.map_map]
  refine List.map_congr_left ?_
  intro a _
  by_cases hc : a.team_id = tid <;> simp [hc, hf]

theorem stepMatch_team_map (tbl : List StandRow) (m : MatchRow) :
    (stepMatch tbl m).map StandRow.team = tbl.map StandRow.team := by
  unfold stepMatch
  split
  · rw [updateRow_team_map _ _ _ (applyAway_team m), updateRow_team_map _ _ _ (applyHome_team m)]
  · rfl

theorem foldl_team_map (ms : List MatchRow) (tbl : List StandRow) :
    (ms.foldl stepMatch tbl).map StandRow.team = tbl.map StandRow.team := by
  induction ms generalizing tbl with
  | nil => rfl
  | cons m ms ih => rw [List.foldl_cons, ih, stepMatch_team_map]

theorem computeStandings_names_nodup (s : Store) (cid : Nat)
    (hnames : (s.teams.map Team.name).Nodup) :
    ((computeStandings s cid).map StandRow.team).Nodup := by
  unfold computeStandings sortRows
  have hperm := (List.mergeSort_perm
    ((finishedMatches s cid).foldl stepMatch ((registeredTeams s cid).map initRow))
    rowLE).map StandRow.team
  rw [hperm.nodup_iff, foldl_team_map, List.map_map]
  have : (StandRow.team ∘ initRow) = Team.name := rfl
  rw [this]
  exact ((List.filter_sublist s.teams).map Team.name).nodup hnames

theorem computeStandings_finStore_length : (computeStandings finStore 1).length = 2 := by
  unfold computeStandings sortRows
  rw [List.length_mergeSort]
  decide

/-! ### Claim theorems -/

/-- C1: for a GOAL or OWN_GOAL event applied to a match and credited to a
team id equal to the match's home or away team id (the two being distinct,
the documented match invariant), the score increments follow the XOR rule:
the home increment is 1 exactly when (teamId equals homeTeamId) XOR (the
type is OWN_GOAL), symmetrically for away; in particular a GOAL for the
home team raises home_score by 1 leaving away_score unchanged, and an
OWN_GOAL credited to the home team raises away_score by 1. -/
theorem goal_event_xor_rule (s : Store) (mid : Nat) (e : EventReq) (ty : EventType)
    (mt : MatchRow) (t : Nat)
    (hty : parseEventType e.type = some ty)
    (hsc : ty = .GOAL ∨ ty = .OWN_GOAL)
    (hok : eventInsertOk s mid e = true)
    (hfind : s.matchesTbl.find? (fun m => m.id == mid) = some mt)
    (htid : e.team_id = some t)
    (hmem : t = mt.home_team_id ∨ t = mt.away_team_id)
    (hne : mt.home_team_id ≠ mt.away_team_id) :
    (applyEvent s mid e).1.matchesTbl.find? (fun m => m.id == mid) =
      some { mt with
             home_score := mt.home_score +
               (if Xor' (t = mt.home_team_id) (ty = .OWN_GOAL) then 1 else 0),
             away_score := mt.away_score +
               (if Xor' (t = mt.away_team_id) (ty = .OWN_GOAL) then 1 else 0) } ∧
    (ty = .GOAL → t = mt.home_team_id →
      (applyEvent s mid e).1.matchesTbl.find? (fun m => m.id == mid) =
        some { mt with home_score := mt.home_score + 1 }) ∧
    (ty = .OWN_GOAL → t = mt.home_team_id →
      (applyEvent s mid e).1.matchesTbl.find? (fun m => m.id == mid) =
        some { mt with away_score := mt.away_score + 1 }) := by
  have hmain := (applyEvent_matches_of_goal s mid e ty mt hty hsc hok hfind).2
  rw [xor_if_int (e.team_id == some mt.home_team_id) (ty == EventType.OWN_GOAL)
        (t = mt.home_team_id) (ty = EventType.OWN_GOAL) (by rw [htid]; simp) (by simp),
      xor_if_int (e.team_id == some mt.away_team_id) (ty == EventType.OWN_GOAL)
        (t = mt.away_team_id) (ty = EventType.OWN_GOAL) (by rw [htid]; simp) (by simp)] at hmain
  refine ⟨hmain, ?_, ?_⟩
  · rintro rfl rfl
    have hta : ¬ (mt.home_team_id = mt.away_team_id) := hne
    rw [hmain]
    congr 1
    simp [Xor', hta]
  · rintro rfl rfl
    have hta : ¬ (mt.home_team_id = mt.away_team_id) := hne
    rw [hmain]
    congr 1
    simp [Xor', hta]

/-- Witness for C1 at a concrete store: a GOAL credited to the home side of
match 1. -/
theorem goal_event_xor_rule_witness :
    (applyEvent witStore 1 ⟨10, "GOAL", none, some 1, none⟩).1.matchesTbl.find?
        (fun m => m.id == 1) =
      some { witMatch with
             home_score := witMatch.home_score +
               (if Xor' (1 = witMatch.home_team_id) (EventType.GOAL = EventType.OWN_GOAL) then 1 else 0),
             away_score := witMatch.away_score +
               (if Xor' (1 = witMatch.away_team_id) (EventType.GOAL = EventType.OWN_GOAL) then 1 else 0) } ∧
    (applyEvent witStore 1 ⟨10, "GOAL", none, some 1, none⟩).1.matchesTbl.find?
        (fun m => m.id == 1) =
      some { witMatch with home_score := witMatch.home_score + 1 } := by
  have h := goal_event_xor_rule witStore 1 ⟨10, "GOAL", none, some 1, none⟩ EventType.GOAL
    witMatch 1 rfl (Or.inl rfl) (by decide) (by decide) rfl (Or.inl (by decide)) (by decide)
  exact ⟨h.1, h.2.1 rfl (by decide)⟩

/-- C2 counterexample: an OWN_GOAL whose team_id (null) matches neither
side of the match increments BOTH scores by 1, not neither; the score
update is not a no-op, although the event row is still persisted. -/
theorem own_goal_unmatched_increments_both :
    (applyEvent witStore 1 ⟨10, "OWN_GOAL", none, none, none⟩).1.matchesTbl.map
        (fun m => (m.home_score, m.away_score)) = [(1, 1)] ∧
    witStore.matchesTbl.map (fun m => (m.home_score, m.away_score)) = [(0, 0)] ∧
    (applyEvent witStore 1 ⟨10, "OWN_GOAL", none, none, none⟩).1.events.length = 1 := by
  decide

/-- C2 amended: for a GOAL or OWN_GOAL event whose team_id matches neither
the home nor the away team id of the match (including null), the event row
is still persisted, and the score increments are both 0 for a GOAL but
both 1 for an OWN_GOAL (the XOR with isOwn flips both sides). -/
theorem goal_unmatched_team_score_effect (s : Store) (mid : Nat) (e : EventReq)
    (ty : EventType) (mt : MatchRow)
    (hty : parseEventType e.type = some ty)
    (hsc : ty = .GOAL ∨ ty = .OWN_GOAL)
    (hok : eventInsertOk s mid e = true)
    (hfind : s.matchesTbl.find? (fun m => m.id == mid) = some mt)
    (hnh : e.team_id ≠ some mt.home_team_id)
    (hna : e.team_id ≠ some mt.away_team_id) :
    (applyEvent s mid e).1.events =
      s.events ++ [⟨s.nextEventId, mid, e.minute, ty, e.player_id, e.team_id, e.notes⟩] ∧
    (applyEvent s mid e).1.matchesTbl.find? (fun m => m.id == mid) =
      some { mt with
             home_score := mt.home_score + (if ty = .OWN_GOAL then 1 else 0),
             away_score := mt.away_score + (if ty = .OWN_GOAL then 1 else 0) } := by
  refine ⟨applyEvent_events_ok s mid e ty mt hty hok hfind, ?_⟩
  have hmain := (applyEvent_matches_of_goal s mid e ty mt hty hsc hok hfind).2
  have hbh : (e.team_id == some mt.home_team_id) = false := by
    simpa using hnh
  have hba : (e.team_id == some mt.away_team_id) = false := by
    simpa using hna
  rw [hbh, hba] at hmain
  rw [hmain]
  rcases hsc with h | h <;> subst h <;> simp

/-- Witness for the amended C2: the OWN_GOAL with null team_id both
persists the event and adds 1 to each score. -/
theorem goal_unmatched_team_score_effect_witness :
    (applyEvent witStore 1 ⟨10, "OWN_GOAL", none, none, none⟩).1.events =
      witStore.events ++ [⟨witStore.nextEventId, 1, 10, EventType.OWN_GOAL, none, none, none⟩] ∧
    (applyEvent witStore 1 ⟨10, "OWN_GOAL", none, none, none⟩).1.matchesTbl.find?
        (fun m => m.id == 1) =
      some { witMatch with
             home_score := witMatch.home_score +
               (if EventType.OWN_GOAL = EventType.OWN_GOAL then 1 else 0),
             away_score := witMatch.away_score +
               (if EventType.OWN_GOAL = EventType.OWN_GOAL then 1 else 0) } :=
  goal_unmatched_team_score_effect witStore 1 ⟨10, "OWN_GOAL", none, none, none⟩
    EventType.OWN_GOAL witMatch rfl (Or.inr rfl) (by decide) (by decide) (by decide) (by decide)

/-- C3: for a finished match whose home and away rows are both present in
the standings table (and whose two sides are distinct teams), the
per-match step of computeStandings increments both teams' played count by
1, adds the home score to the home team's goalsFor and the away team's
goalsAgainst (symmetrically for away), recomputes goalDiff as
goalsFor - goalsAgainst, and awards a win and 3 points against a loss and
0 points by score comparison, or a draw and 1 point each on equality. -/
theorem standings_match_accounting (tbl : List StandRow) (m : MatchRow) (rh ra : StandRow)
    (hh : tbl.find? (fun r => r.team_id == m.home_team_id) = some rh)
    (ha : tbl.find? (fun r => r.team_id == m.away_team_id) = some ra)
    (hne : m.home_team_id ≠ m.away_team_id) :
    (stepMatch tbl m).find? (fun r => r.team_id == m.home_team_id) = some (applyHome m rh) ∧
    (stepMatch tbl m).find? (fun r => r.team_id == m.away_team_id) = some (applyAway m ra) ∧
    (applyHome m rh).P = rh.P + 1 ∧ (applyAway m ra).P = ra.P + 1 ∧
    (applyHome m rh).GF = rh.GF + m.home_score ∧ (applyHome m rh).GA = rh.GA + m.away_score ∧
    (applyAway m ra).GF = ra.GF + m.away_score ∧ (applyAway m ra).GA = ra.GA + m.home_score ∧
    (applyHome m rh).GD = (applyHome m rh).GF - (applyHome m rh).GA ∧
    (applyAway m ra).GD = (applyAway m ra).GF - (applyAway m ra).GA ∧
    (m.away_score < m.home_score →
      (applyHome m rh).W = rh.W + 1 ∧ (applyHome m rh).PTS = rh.PTS + 3 ∧
      (applyAway m ra).L = ra.L + 1 ∧ (applyAway m ra).PTS = ra.PTS) ∧
    (m.home_score < m.away_score →
      (applyAway m ra).W = ra.W + 1 ∧ (applyAway m ra).PTS = ra.PTS + 3 ∧
      (applyHome m rh).L = rh.L + 1 ∧ (applyHome m rh).PTS = rh.PTS) ∧
    (m.home_score = m.away_score →
      (applyHome m rh).D = rh.D + 1 ∧ (applyHome m rh).PTS = rh.PTS + 1 ∧
      (applyAway m ra).D = ra.D + 1 ∧ (applyAway m ra).PTS = ra.PTS + 1) := by
  refine ⟨stepMatch_find_home tbl m rh ra hh ha hne,
    stepMatch_find_away tbl m rh ra hh ha hne,
    (applyHome_base m rh).1, (applyAway_base m ra).1,
    (applyHome_base m rh).2.1, (applyHome_base m rh).2.2.1,
    (applyAway_base m ra).2.1, (applyAway_base m ra).2.2.1,
    (applyHome_base m rh).2.2.2, (applyAway_base m ra).2.2.2,
    fun h => ⟨((applyHome_result m rh).1 h).1, ((applyHome_result m rh).1 h).2.2.2,
      ((applyAway_result m ra).1 h).1, ((applyAway_result m ra).1 h).2.2.2⟩,
    fun h => ⟨((applyAway_result m ra).2.1 h).1, ((applyAway_result m ra).2.1 h).2.2.2,
      ((applyHome_result m rh).2.1 h).1, ((applyHome_result m rh).2.1 h).2.2.2⟩,
    fun h => ⟨((applyHome_result m rh).2.2 h).1, ((applyHome_result m rh).2.2 h).2.2.2,
      ((applyAway_result m ra).2.2 h).1, ((applyAway_result m ra).2.2 h).2.2.2⟩⟩

/-- Witness for C3 on the two-team table with a 3-1 home win. -/
theorem standings_match_accounting_witness :
    (stepMatch [initRow teamA, initRow teamB] finMatch).find?
        (fun r => r.team_id == finMatch.home_team_id) = some (applyHome finMatch (initRow teamA)) ∧
    (applyHome finMatch (initRow teamA)).P = (initRow teamA).P + 1 ∧
    (finMatch.away_score < finMatch.home_score →
      (applyHome finMatch (initRow teamA)).W = (initRow teamA).W + 1 ∧
      (applyHome finMatch (initRow teamA)).PTS = (initRow teamA).PTS + 3) := by
  have h := standings_match_accounting [initRow teamA, initRow teamB] finMatch
    (initRow teamA) (initRow teamB) (by decide) (by decide) (by decide)
  exact ⟨h.1, h.2.2.1, fun hgt => ⟨(h.2.2.2.2.2.2.2.2.2.2.1 hgt).1, (h.2.2.2.2.2.2.2.2.2.2.1 hgt).2.1⟩⟩

/-- C4: with team names unique (the schema's UNIQUE constraint on
teams.name), the output of computeStandings is sorted by the composite
comparator: for any two distinct positions i, j of the output, i comes
before j exactly when row i's key tuple (points, goal difference,
goals-for, reversed name) is lexicographically greater than or equal to
row j's. -/
theorem standings_sorted_by_comparator (s : Store) (cid : Nat)
    (hnames : (s.teams.map Team.name).Nodup)
    (i j : Nat) (hi : i < (computeStandings s cid).length)
    (hj : j < (computeStandings s cid).length) (hij : i ≠ j) :
    i < j ↔ keyGE ((computeStandings s cid).get ⟨i, hi⟩)
      ((computeStandings s cid).get ⟨j, hj⟩) := by
  have hpair : List.Pairwise (fun a b => rowLE a b = true) (computeStandings s cid) :=
    sortRows_pairwise _
  have hnn := computeStandings_names_nodup s cid hnames
  have hteam_ne : ((computeStandings s cid).get ⟨i, hi⟩).team ≠
      ((computeStandings s cid).get ⟨j, hj⟩).team := by
    intro he
    have hgi : (((computeStandings s cid).map StandRow.team).get
        ⟨i, by simpa using hi⟩) = (((computeStandings s cid).map StandRow.team).get
        ⟨j, by simpa using hj⟩) := by
      rw [List.get_map, List.get_map]
      exact he
    have := (hnn.get_inj_iff).1 hgi
    exact hij (by simpa using this)
  constructor
  · intro hlt
    have h := (List.pairwise_iff_get.1 hpair) ⟨i, hi⟩ ⟨j, hj⟩ hlt
    unfold rowLE at h
    rw [decide_eq_true_iff, rowCmp_le_zero_iff] at h
    exact h
  · intro hge
    by_contra hnlt
    have hji : j < i := by omega
    have h := (List.pairwise_iff_get.1 hpair) ⟨j, hj⟩ ⟨i, hi⟩ hji
    unfold rowLE at h
    rw [decide_eq_true_iff, rowCmp_le_zero_iff] at h
    exact hteam_ne (keyGE_antisymm hge h).2.2.2

/-- Witness for C4 on the two-team standings of finStore. -/
theorem standings_sorted_by_comparator_witness :
    (0 : Nat) < 1 ↔
      keyGE ((computeStandings finStore 1).get
          ⟨0, by rw [computeStandings_finStore_length]; omega⟩)
        ((computeStandings finStore 1).get
          ⟨1, by rw [computeStandings_finStore_length]; omega⟩) :=
  standings_sorted_by_comparator finStore 1 (by decide) 0 1
    (by rw [computeStandings_finStore_length]; omega)
    (by rw [computeStandings_finStore_length]; omega) (by omega)

/-- C5: an applied GOAL event carrying a (nonzero) player id increments
that player's goals counter by exactly 1, and an applied OWN_GOAL event
leaves every player row unchanged, in particular never increments the
referenced player's goals counter. -/
theorem goal_player_counter (s : Store) (mid : Nat) (e : EventReq) :
    (∀ pid mt q, parseEventType e.type = some .GOAL → eventInsertOk s mid e = true →
      s.matchesTbl.find? (fun m => m.id == mid) = some mt →
      e.player_id = some pid → pid ≠ 0 →
      s.players.find? (fun p => p.id == pid) = some q →
      (applyEvent s mid e).1.players.find? (fun p => p.id == pid) =
        some { q with goals := q.goals + 1 }) ∧
    (parseEventType e.type = some .OWN_GOAL →
      (applyEvent s mid e).1.players = s.players) :=
  ⟨fun pid mt q h1 h2 h3 h4 h5 h6 =>
      applyEvent_player_goal s mid e pid mt q h1 h2 h3 h4 h5 h6,
   fun h => applyEvent_players_own_goal s mid e h⟩

/-- Witness for C5: a GOAL for player 7 raises the counter by one; an
OWN_GOAL referencing the same player changes no player row. -/
theorem goal_player_counter_witness :
    (applyEvent witStore 1 ⟨10, "GOAL", some 7, some 1, none⟩).1.players.find?
        (fun p => p.id == 7) = some { witPlayer with goals := witPlayer.goals + 1 } ∧
    (applyEvent witStore 1 ⟨10, "OWN_GOAL", some 7, some 1, none⟩).1.players =
      witStore.players :=
  ⟨(goal_player_counter witStore 1 ⟨10, "GOAL", some 7, some 1, none⟩).1 7 witMatch witPlayer
      rfl (by decide) (by decide) rfl (by decide) (by decide),
   (goal_player_counter witStore 1 ⟨10, "OWN_GOAL", some 7, some 1, none⟩).2 rfl⟩

/-- C6 counterexample: the status route moves a FINISHED match back to
SCHEDULED, so status transitions are not forward-only. -/
theorem finished_back_to_scheduled :
    finStore.matchesTbl.map MatchRow.status = [.FINISHED] ∧
    (updateStatus finStore 1 "SCHEDULED").map
      (fun s => s.matchesTbl.map MatchRow.status) = some [.SCHEDULED] := by
  decide

/-- C6 amended: the status route accepts any of the three enum values and
writes it unconditionally over the current status of the addressed match;
no forward-only restriction exists, so backward transitions such as
FINISHED to SCHEDULED succeed. -/
theorem updateStatus_unconditional (s : Store) (id : Nat) (st : String) (v : MatchStatus)
    (h : parseStatus st = some v) :
    updateStatus s id st =
      some { s with
             matchesTbl := s.matchesTbl.map
               (fun m => if m.id == id then { m with status := v } else m) } := by
  simp [updateStatus, h]

/-- Witness for the amended C6: writing SCHEDULED over the finished match
of finStore. -/
theorem updateStatus_unconditional_witness :
    updateStatus finStore 1 "SCHEDULED" =
      some { finStore with
             matchesTbl := finStore.matchesTbl.map
               (fun m => if m.id == 1 then { m with status := MatchStatus.SCHEDULED } else m) } :=
  updateStatus_unconditional finStore 1 "SCHEDULED" MatchStatus.SCHEDULED rfl

/-- C7 counterexample: the player-update route sets the goals counter of
player 7 from 4 down to 0, so the counters are neither non-decreasing over
every operation nor mutated only by the event processor. -/
theorem put_player_decreases_goals :
    witStore.players.map Player.goals = [4] ∧
    (updatePlayer witStore 7 { emptyPatch with goals := some 0 }).map
      (fun s => s.players.map Player.goals) = some [0] := by
  decide

/-- C7 amended: under the event processor alone the five cumulative player
counters are monotonically non-decreasing: every applyEvent call maps the
player table pointwise to rows with the same id and counters at least as
large; the player-update route, however, can write arbitrary (lower)
counter values. -/
theorem applyEvent_counterLe (s : Store) (mid : Nat) (e : EventReq) :
    List.Forall₂ counterLe s.players (applyEvent s mid e).1.players := by
  have hrefl : List.Forall₂ counterLe s.players s.players :=
    List.forall₂_same.2 (fun x _ => counterLe_refl x)
  cases hty : parseEventType e.type with
  | none => simpa [applyEvent, hty] using hrefl
  | some ty =>
    by_cases hok : eventInsertOk s mid e = true
    · simp only [applyEvent, hty, hok, if_true]
      cases hf : ({ s with
          events := s.events ++ [⟨s.nextEventId, mid, e.minute, ty, e.player_id, e.team_id, e.notes⟩],
          nextEventId := s.nextEventId + 1 } : Store).matchesTbl.find? (fun m => m.id == mid) with
      | none => exact hrefl
      | some mt =>
        simp only [hf]
        cases ty with
        | GOAL =>
          have e1 : (EventType.GOAL == EventType.GOAL || EventType.GOAL == EventType.OWN_GOAL) = true := rfl
          have e2 : (EventType.GOAL == EventType.GOAL) = true := rfl
          have e3 : (EventType.GOAL == EventType.YELLOW) = false := rfl
          have e4 : (EventType.GOAL == EventType.RED) = false := rfl
          simp only [e1, e2, e3, e4, Bool.and_true, Bool.false_and, Bool.false_eq_true,
            if_false, if_true]
          cases htru : truthyId e.player_id
          · simp only [htru, Bool.false_eq_true, if_false]
            exact hrefl
          · simp only [htru, if_true]
            exact forall₂_counterLe_condMap _ _ _
              (fun p => ⟨rfl, le_refl _, by show p.goals ≤ p.goals + 1; omega, le_refl _, le_refl _, le_refl _⟩)
        | ASSIST =>
          have e1 : (EventType.ASSIST == EventType.GOAL || EventType.ASSIST == EventType.OWN_GOAL) = false := rfl
          have e3 : (EventType.ASSIST == EventType.YELLOW) = false := rfl
          have e4 : (EventType.ASSIST == EventType.RED) = false := rfl
          simp only [e1, e3, e4, Bool.false_and, Bool.false_eq_true, if_false]
          exact hrefl
        | YELLOW =>
          have e1 : (EventType.YELLOW == EventType.GOAL || EventType.YELLOW == EventType.OWN_GOAL) = false := rfl
          have e3 : (EventType.YELLOW == EventType.YELLOW) = true := rfl
          have e4 : (EventType.YELLOW == EventType.RED) = false := rfl
          simp only [e1, e3, e4, Bool.true_and, Bool.false_and, Bool.false_eq_true,
            if_false, if_true]
          cases htru : truthyId e.player_id
          · simp only [htru, Bool.false_eq_true, if_false]
            exact hrefl
          · simp only [htru, if_true]
            exact forall₂_counterLe_condMap _ _ _
              (fun p => ⟨rfl, le_refl _, le_refl _, le_refl _, by show p.yellow_cards ≤ p.yellow_cards + 1; omega, le_refl _⟩)
        | RED =>
          have e1 : (EventType.RED == EventType.GOAL || EventType.RED == EventType.OWN_GOAL) = false := rfl
          have e3 : (EventType.RED == EventType.YELLOW) = false := rfl
          have e4 : (EventType.RED == EventType.RED) = true := rfl
          simp only [e1, e3, e4, Bool.true_and, Bool.false_and, Bool.false_eq_true,
            if_false, if_true]
          cases htru : truthyId e.player_id
          · simp only [htru, Bool.false_eq_true, if_false]
            exact hrefl
          · simp only [htru, if_true]
            exact forall₂_counterLe_condMap _ _ _
              (fun p => ⟨rfl, le_refl _, le_refl _, le_refl _, le_refl _, by show p.red_cards ≤ p.red_cards + 1; omega⟩)
        | SUB =>
          have e1 : (EventType.SUB == EventType.GOAL || EventType.SUB == EventType.OWN_GOAL) = false := rfl
          have e3 : (EventType.SUB == EventType.YELLOW) = false := rfl
          have e4 : (EventType.SUB == EventType.RED) = false := rfl
          simp only [e1, e3, e4, Bool.false_and, Bool.false_eq_true, if_false]
          exact hrefl
        | OWN_GOAL =>
          have e1 : (EventType.OWN_GOAL == EventType.GOAL || EventType.OWN_GOAL == EventType.OWN_GOAL) = true := rfl
          have e2 : (EventType.OWN_GOAL == EventType.GOAL) = false := rfl
          have e3 : (EventType.OWN_GOAL == EventType.YELLOW) = false := rfl
          have e4 : (EventType.OWN_GOAL == EventType.RED) = false := rfl
          simp only [e1, e2, e3, e4, Bool.and_false, Bool.false_and, Bool.false_eq_true,
            if_false, if_true]
          exact hrefl
    · simp only [applyEvent, hty, hok, if_false]
      exact hrefl

/-- C8: the event route fails when the type is not one of the six enum
values (the route's own 400 check) and when the minute is outside [0,130]
(the schema's CHECK constraint aborting the INSERT); in either case the
returned store is exactly the input store: no event row is persisted and
no match or player row is mutated. -/
theorem event_validation (s : Store) (mid : Nat) (e : EventReq) :
    (parseEventType e.type = none →
      applyEvent s mid e = (s, .error .badEventType)) ∧
    ((e.minute < 0 ∨ 130 < e.minute) →
      ∃ err, applyEvent s mid e = (s, .error err)) := by
  constructor
  · intro h
    simp [applyEvent, h]
  · intro hmin
    cases hty : parseEventType e.type with
    | none =>
      exact ⟨.badEventType, by simp [applyEvent, hty]⟩
    | some ty =>
      have hok : eventInsertOk s mid e = false := by
        unfold eventInsertOk
        rcases hmin with h | h <;>
          simp [show ¬ (0 ≤ e.minute ∧ e.minute ≤ 130) by omega]
      refine ⟨.storageCheck, ?_⟩
      simp [applyEvent, hty, hok]

/-- Witness for C8: an unrecognized type and an out-of-range minute both
leave witStore unchanged. -/
theorem event_validation_witness :
    applyEvent witStore 1 ⟨10, "HEADER", none, none, none⟩ =
      (witStore, .error .badEventType) ∧
    ∃ err, applyEvent witStore 1 ⟨131, "GOAL", none, none, none⟩ =
      (witStore, .error err) :=
  ⟨(event_validation witStore 1 ⟨10, "HEADER", none, none, none⟩).1 rfl,
   (event_validation witStore 1 ⟨131, "GOAL", none, none, none⟩).2 (Or.inr (by decide))⟩

/-- C9: an applied GOAL event carrying a (nonzero) player id whose team_id
matches neither side of the match still increments that player's goals
counter by 1 while both match scores stay unchanged. -/
theorem goal_unmatched_team_player_tally (s : Store) (mid : Nat) (e : EventReq)
    (pid : Nat) (mt : MatchRow) (q : Player)
    (hty : parseEventType e.type = some .GOAL)
    (hok : eventInsertOk s mid e = true)
    (hfind : s.matchesTbl.find? (fun m => m.id == mid) = some mt)
    (hnh : e.team_id ≠ some mt.home_team_id)
    (hna : e.team_id ≠ some mt.away_team_id)
    (hpid : e.player_id = some pid) (hpz : pid ≠ 0)
    (hq : s.players.find? (fun p => p.id == pid) = some q) :
    (applyEvent s mid e).1.matchesTbl.find? (fun m => m.id == mid) = some mt ∧
    (applyEvent s mid e).1.players.find? (fun p => p.id == pid) =
      some { q with goals := q.goals + 1 } := by
  refine ⟨?_, applyEvent_player_goal s mid e pid mt q hty hok hfind hpid hpz hq⟩
  have hmain := (applyEvent_matches_of_goal s mid e EventType.GOAL mt hty (Or.inl rfl) hok hfind).2
  have hbh : (e.team_id == some mt.home_team_id) = false := by simpa using hnh
  have hba : (e.team_id == some mt.away_team_id) = false := by simpa using hna
  rw [hbh, hba] at hmain
  simpa using hmain

/-- Witness for C9: a GOAL with null team_id for player 7. -/
theorem goal_unmatched_team_player_tally_witness :
    (applyEvent witStore 1 ⟨10, "GOAL", some 7, none, none⟩).1.matchesTbl.find?
        (fun m => m.id == 1) = some witMatch ∧
    (applyEvent witStore 1 ⟨10, "GOAL", some 7, none, none⟩).1.players.find?
        (fun p => p.id == 7) = some { witPlayer with goals := witPlayer.goals + 1 } :=
  goal_unmatched_team_player_tally witStore 1 ⟨10, "GOAL", some 7, none, none⟩ 7 witMatch
    witPlayer rfl (by decide) (by decide) (by decide) (by decide) rfl (by decide) (by decide)

/-- C10: every row of computeStandings satisfies P = W + D + L,
PTS = 3 * W + D and GD = GF - GA, for every store and competition id. -/
theorem standings_row_arithmetic (s : Store) (cid : Nat) :
    ∀ r ∈ computeStandings s cid,
      r.P = r.W + r.D + r.L ∧ r.PTS = 3 * r.W + r.D ∧ r.GD = r.GF - r.GA := by
  intro r hr
  have hperm := List.mergeSort_perm
    ((finishedMatches s cid).foldl stepMatch ((registeredTeams s cid).map initRow)) rowLE
  have hr' : r ∈ (finishedMatches s cid).foldl stepMatch
      ((registeredTeams s cid).map initRow) := by
    unfold computeStandings sortRows at hr
    exact hperm.subset hr
  exact rowInv_foldl _ _
    (fun r0 hr0 => by
      rw [List.mem_map] at hr0
      obtain ⟨t, _, rfl⟩ := hr0
      exact rowInv_initRow t) r hr'

/-- Witness for C10 on the winning row of the finStore standings. -/
theorem standings_row_arithmetic_witness :
    (⟨1, "Alpha", 1, 1, 0, 0, 3, 1, 2, 3⟩ : StandRow) ∈ computeStandings finStore 1 ∧
    ((1 : Int) = 1 + 0 + 0 ∧ (3 : Int) = 3 * 1 + 0 ∧ (2 : Int) = 3 - 1) := by
  have hmem : (⟨1, "Alpha", 1, 1, 0, 0, 3, 1, 2, 3⟩ : StandRow) ∈ computeStandings finStore 1 := by
    unfold computeStandings sortRows
    exact ((List.mergeSort_perm _ rowLE).mem_iff).2 (by decide)
  exact ⟨hmem, standings_row_arithmetic finStore 1 _ hmem⟩
